import Mathlib

set_option maxHeartbeats 1600000
set_option maxRecDepth 8000

namespace Zwiffery

/-- Variance levels for manual power simulation: the keys of
VirtualTrainer.VARIANCE_LEVELS in virtual_trainer.py. -/
inductive VarianceLevel
  | chill
  | focused
  | standard
  | exact
  deriving DecidableEq

/-- Numeric fraction of each variance level (VirtualTrainer.VARIANCE_LEVELS,
virtual_trainer.py lines 74-79): chill 0.50, focused 0.10, standard 0.25, exact 0.00. -/
def VARIANCE_LEVELS : VarianceLevel → ℚ
  | .chill => 1/2
  | .focused => 1/10
  | .standard => 1/4
  | .exact => 0

/-- The mutable trainer state of VirtualTrainer.__init__ (virtual_trainer.py
lines 55-114), restricted to the fields read or written by the protocol and
simulation core.  Machine floats are embedded as rationals. -/
structure TrainerState where
  power : ℚ
  cadence : ℚ
  speed : ℚ
  target_resistance : ℤ
  is_running : Bool
  base_power : ℚ
  base_cadence : ℚ
  cadence_variation : ℚ
  power_variance_level : VarianceLevel
  power_variance_percent : ℚ
  erg_mode_enabled : Bool
  target_power : ℚ
  current_grade : ℚ
  current_wind_speed : ℚ
  is_stopped : Bool
  is_super_tuck : Bool
  pre_super_tuck_base_power : ℚ
  super_tuck_speed : ℚ
  deriving DecidableEq

/-- Default state built by VirtualTrainer.__init__: stopped, all telemetry zero,
base cadence 85 with variation 5, standard variance (0.25). -/
def defaultState : TrainerState where
  power := 0
  cadence := 0
  speed := 0
  target_resistance := 0
  is_running := false
  base_power := 0
  base_cadence := 85
  cadence_variation := 5
  power_variance_level := .standard
  power_variance_percent := 1/4
  erg_mode_enabled := false
  target_power := 0
  current_grade := 0
  current_wind_speed := 0
  is_stopped := true
  is_super_tuck := false
  pre_super_tuck_base_power := 0
  super_tuck_speed := 0

/-- Little-endian signed 16-bit decode of two bytes, as struct.unpack with
format h does on data slices in _handle_control_point_command. -/
def int16LE (b0 b1 : ℕ) : ℤ :=
  let u : ℕ := b0 + 256 * b1
  if u < 32768 then (u : ℤ) else (u : ℤ) - 65536

/-- Signed 8-bit decode of one byte, as struct.unpack with format b does for
the opcode 0x04 resistance payload. -/
def int8 (b : ℕ) : ℤ := if b < 128 then (b : ℤ) else (b : ℤ) - 256

/-- Grade correction from VirtualTrainer._correct_grade (lines 536-550):
negative grades are doubled, nonnegative grades pass through. -/
def correct_grade (grade : ℚ) : ℚ := if grade < 0 then grade * 2 else grade

/-- Control point response frame built by _send_control_point_response
(lines 512-520): response code 0x80, echoed opcode, result code. -/
def controlPointResponse (opcode result : ℕ) : List ℕ := [128, opcode, result]

/-- VirtualTrainer._handle_control_point_command (lines 420-510).  The input is
the raw frame as a byte list; the output is the mutated state together with the
response frame sent via _send_control_point_response, or none when the code
falls through without responding (empty frame, or truncated payload).
The crr and cw bytes of opcode 0x11 are read by the source but never stored,
so they do not appear in the resulting state. -/
def handle_control_point_command (st : TrainerState) (data : List ℕ) :
    TrainerState × Option (List ℕ) :=
  match data with
  | [] => (st, none)
  | opcode :: payload =>
    if opcode = 0 then
      (st, some (controlPointResponse opcode 1))
    else if opcode = 1 then
      ({st with erg_mode_enabled := false, target_power := 0,
                power := st.base_power, cadence := st.base_cadence},
       some (controlPointResponse opcode 1))
    else if opcode = 4 then
      if 1 ≤ payload.length then
        ({st with target_resistance := int8 (payload.getD 0 0)},
         some (controlPointResponse opcode 1))
      else (st, none)
    else if opcode = 5 then
      if 2 ≤ payload.length then
        let t : ℤ := int16LE (payload.getD 0 0) (payload.getD 1 0)
        if 0 < t then
          ({st with target_power := (t : ℚ), erg_mode_enabled := true,
                    power := (t : ℚ), base_power := 0},
           some (controlPointResponse opcode 1))
        else
          ({st with target_power := (t : ℚ), erg_mode_enabled := true, power := 0},
           some (controlPointResponse opcode 1))
      else (st, none)
    else if opcode = 7 then
      ({st with is_running := true}, some (controlPointResponse opcode 1))
    else if opcode = 8 then
      ({st with is_running := false}, some (controlPointResponse opcode 1))
    else if opcode = 17 then
      -- lines 489-492: ERG mode is cleared BEFORE the payload length check
      let st1 := if st.erg_mode_enabled = true then
          {st with erg_mode_enabled := false, target_power := 0} else st
      if 6 ≤ payload.length then
        let wind : ℤ := int16LE (payload.getD 0 0) (payload.getD 1 0)
        let grade_raw : ℤ := int16LE (payload.getD 2 0) (payload.getD 3 0)
        ({st1 with current_grade := correct_grade ((grade_raw : ℚ) / 100),
                   current_wind_speed := (wind : ℚ) / 1000},
         some (controlPointResponse opcode 1))
      else (st1, none)
    else
      (st, some (controlPointResponse opcode 2))

/-- Outcome of the scipy fsolve call inside _calculate_bike_speed: either the
root estimate it returned (a float, possibly negative or zero), or a raised
numerical exception (the except branch of lines 667-679). -/
inductive SolverOutcome
  | ok (v : ℚ)
  | err
  deriving DecidableEq

/-- A solver outcome that returned a value (did not raise) and whose root is
nonzero, so the tick's speed paths stay inside the clamped branch. -/
def SolverOutcome.nonzeroRoot : SolverOutcome → Prop
  | .ok v => v ≠ 0
  | .err => False

/-- VirtualTrainer._calculate_bike_speed (lines 576-679).  The fsolve call and
its seed are abstracted into the SolverOutcome argument; math.sqrt is
abstracted into the sq argument (both feed only the negative-root estimate).
On a returned root: a negative root is replaced by the closed-form estimates of
lines 640-659, then the speed v * 3.6 km/h is clamped to the interval from 0
to 150 (line 664).  On a raised exception: the unclamped fallbacks of lines
667-679.  The wind argument only influenced the fsolve equation and seed in
the source, hence only the outcome here. -/
def calculate_bike_speed (sq : ℚ → ℚ) (power grade _wind : ℚ) (out : SolverOutcome) : ℚ :=
  match out with
  | .ok v0 =>
    let v : ℚ :=
      if v0 < 0 then
        if grade < 0 ∧ 0 < power then
          max 8 (sq |grade| * 8 + sq (power / 20))
        else if grade < 0 then
          max 5 (sq |grade| * 8)
        else
          max (1/10) (power / 100)
      else v0
    max 0 (min 150 (v * (36/10)))
  | .err =>
    if 0 < power then 15 + power / 10
    else if grade < 0 then |grade| * 7
    else 0

/-- Nondeterministic inputs of one simulate_realistic_data tick: the two
random.uniform draws rescaled to unit amplitude (random.uniform applied to
-a and a equals a * u with u between -1 and 1), and the fsolve outcome of each
of the three possible _calculate_bike_speed call sites (the exact-mode store of
line 721, the main speed computation of line 749, and the super-tuck coast
computation of lines 780/797), plus the math.sqrt model. -/
structure TickEnv where
  uPower : ℚ
  uCadence : ℚ
  solverMain : SolverOutcome
  solverTuck : SolverOutcome
  solverExact : SolverOutcome
  sq : ℚ → ℚ

/-- Lines 692-741 of simulate_realistic_data: the ERG / exact / normal power
and cadence branch.  The ERG branch clamps, floors at 1 W, and drops super
tuck (lines 697-716); the exact branch copies target_power and base_cadence
and stores a speed that is overwritten later in the same tick (lines 717-723);
the normal branch applies the grade multiplier and scaled variance
(lines 724-741). -/
def tickBranch (st : TrainerState) (env : TickEnv) : TrainerState :=
  let grade_multiplier : ℚ := 1 + 4 * st.current_grade / 100
  if st.erg_mode_enabled = true ∧ 0 < st.target_power then
    let base_erg_power := st.target_power
    let variance_amount := base_erg_power * (3/100)
    let p1 := max 0 (min 2000 (base_erg_power + variance_amount * env.uPower))
    let p2 := if 0 < st.target_power ∧ p1 < 1 then 1 else p1
    {st with power := p2,
             cadence := st.base_cadence + st.cadence_variation * env.uCadence,
             is_super_tuck := false}
  else if st.power_variance_level = VarianceLevel.exact then
    {st with power := st.target_power,
             cadence := st.base_cadence,
             speed := calculate_bike_speed env.sq st.target_power st.current_grade
               st.current_wind_speed env.solverExact,
             is_super_tuck := false}
  else
    let st0 := if st.erg_mode_enabled = true ∧ st.is_super_tuck = true then
        {st with is_super_tuck := false} else st
    let p : ℚ := if 0 < st.base_power then
        let effective := st.base_power * grade_multiplier
        effective + (effective * st.power_variance_percent) * env.uPower
      else 0
    {st0 with power := p,
              cadence := st.base_cadence + st.cadence_variation * env.uCadence}

/-- Lines 744-745: clamp power to the interval from 0 to 2000 and cadence to
the interval from 0 to 200. -/
def clampPowerCadence (st : TrainerState) : TrainerState :=
  {st with power := max 0 (min 2000 st.power),
           cadence := max 0 (min 200 st.cadence)}

/-- The speed value assigned by lines 747-760: recomputed from the freshly
clamped power; if the physics result is not positive, the simple fallback
15 + power / 10 of line 756; with nonpositive power the speed is 0. -/
def tickSpeed (st : TrainerState) (env : TickEnv) : ℚ :=
  if 0 < st.power then
    if 0 < calculate_bike_speed env.sq st.power st.current_grade
        st.current_wind_speed env.solverMain then
      calculate_bike_speed env.sq st.power st.current_grade
        st.current_wind_speed env.solverMain
    else 15 + st.power / 10
  else 0

/-- Lines 747-760 as a state update: only the speed field changes. -/
def tickSpeedUpdate (st : TrainerState) (env : TickEnv) : TrainerState :=
  {st with speed := tickSpeed st env}

/-- Super tuck speed threshold (line 104): 70.0 km/h. -/
def super_tuck_speed_threshold : ℚ := 70

/-- Super tuck entry grade threshold (line 105): -8 percent. -/
def super_tuck_grade_threshold_entry : ℚ := -8

/-- Super tuck exit grade threshold (line 106): -3 percent. -/
def super_tuck_grade_threshold_exit : ℚ := -3

/-- VirtualTrainer._check_can_enter_super_tuck (lines 552-561). -/
def check_can_enter_super_tuck (st : TrainerState) : Prop :=
  super_tuck_speed_threshold ≤ st.speed ∧
    st.current_grade ≤ super_tuck_grade_threshold_entry

instance (st : TrainerState) : Decidable (check_can_enter_super_tuck st) := by
  unfold check_can_enter_super_tuck; infer_instance

/-- VirtualTrainer._check_should_exit_super_tuck (lines 563-574). -/
def check_should_exit_super_tuck (st : TrainerState) : Prop :=
  st.speed < super_tuck_speed_threshold ∨
    super_tuck_grade_threshold_exit ≤ st.current_grade

instance (st : TrainerState) : Decidable (check_should_exit_super_tuck st) := by
  unfold check_should_exit_super_tuck; infer_instance

/-- Lines 762-798: the super tuck hysteresis block, skipped entirely in ERG
mode.  While tucked and not exiting, or on entry, power and cadence are forced
to 0 and speed is recomputed by coasting at power 0; the source assigns
super_tuck_speed twice on entry (lines 788 and 798), so its final value is the
coasting speed. -/
def tickTuck (st : TrainerState) (env : TickEnv) : TrainerState :=
  if st.erg_mode_enabled = true then st
  else if st.is_super_tuck = true then
    if check_should_exit_super_tuck st then
      {st with base_power := st.pre_super_tuck_base_power, is_super_tuck := false}
    else
      {st with power := 0, cadence := 0,
               speed := calculate_bike_speed env.sq 0 st.current_grade
                 st.current_wind_speed env.solverTuck,
               super_tuck_speed := calculate_bike_speed env.sq 0 st.current_grade
                 st.current_wind_speed env.solverTuck}
  else
    if check_can_enter_super_tuck st then
      {st with pre_super_tuck_base_power := st.base_power, is_super_tuck := true,
               power := 0, cadence := 0,
               speed := calculate_bike_speed env.sq 0 st.current_grade
                 st.current_wind_speed env.solverTuck,
               super_tuck_speed := calculate_bike_speed env.sq 0 st.current_grade
                 st.current_wind_speed env.solverTuck}
    else st

/-- The state after the power, clamp and speed stages of a non-stopped tick,
just before the super tuck hysteresis block reads it (the self state at
line 762). -/
def tickMidState (st : TrainerState) (env : TickEnv) : TrainerState :=
  tickSpeedUpdate (clampPowerCadence (tickBranch st env)) env

/-- VirtualTrainer.simulate_realistic_data (lines 681-798): one simulation
tick.  A stopped tick pins power, cadence and speed to 0 and clears super tuck
(lines 684-690); otherwise the branch, clamp, speed and super tuck stages run
in source order. -/
def simulate_realistic_data (st : TrainerState) (env : TickEnv) : TrainerState :=
  if st.is_stopped = true then
    {st with power := 0, cadence := 0, speed := 0, is_super_tuck := false}
  else
    tickTuck (tickMidState st env) env

/-- VirtualTrainer.start_power (lines 801-811). -/
def start_power (st : TrainerState) : TrainerState :=
  if st.is_stopped = true then
    {st with is_stopped := false, power := 0, base_power := 0, cadence := 0}
  else st

/-- VirtualTrainer.stop_power (lines 855-862). -/
def stop_power (st : TrainerState) : TrainerState :=
  {st with is_stopped := true, power := 0, base_power := 0, cadence := 0, speed := 0}

/-- VirtualTrainer.update_power (lines 813-853).  Out-of-range wattage is
rejected with no mutation; 0 W is routed to stop_power; a recognized variance
level updates both variance fields (an unrecognized string, modelled by none,
leaves them unchanged); ERG mode is cleared; the stopped flag is cleared,
power and base_power are set, and a zero cadence is restored to base_cadence. -/
def update_power (st : TrainerState) (new_power : ℤ)
    (variance_level : Option VarianceLevel) : TrainerState :=
  if new_power < 0 ∨ 2000 < new_power then st
  else if new_power = 0 then stop_power st
  else
    let st1 := match variance_level with
      | some lvl => {st with power_variance_level := lvl,
                             power_variance_percent := VARIANCE_LEVELS lvl}
      | none => st
    let st2 := if st1.erg_mode_enabled = true then
        {st1 with erg_mode_enabled := false, target_power := 0} else st1
    let st3 := {st2 with is_stopped := false, power := (new_power : ℚ),
                         base_power := (new_power : ℚ)}
    if st3.cadence = 0 then {st3 with cadence := st3.base_cadence} else st3

/-- Python int() applied to a float: truncation toward zero. -/
def pyInt (q : ℚ) : ℤ := if q < 0 then -Int.floor (-q) else Int.floor q

/-- Little-endian byte pair of an unsigned 16-bit value (struct.pack format H
for an in-range value). -/
def u16LE (n : ℕ) : List ℕ := [n % 256, n / 256 % 256]

/-- VirtualTrainer._encode_indoor_bike_data (lines 354-386): flags 0x0444,
speed in 0.01 km/h units, cadence in 0.5 rpm units, power as a signed 16-bit
integer, all little-endian.  struct.pack raises on out-of-range values, which
is modelled by returning none. -/
def encode_indoor_bike_data (st : TrainerState) : Option (List ℕ) :=
  if 0 ≤ pyInt (st.speed * 100) ∧ pyInt (st.speed * 100) < 65536 ∧
      0 ≤ pyInt (st.cadence * 2) ∧ pyInt (st.cadence * 2) < 65536 ∧
      -32768 ≤ pyInt st.power ∧ pyInt st.power < 32768 then
    some (u16LE 1092 ++ u16LE (pyInt (st.speed * 100)).toNat ++
      u16LE (pyInt (st.cadence * 2)).toNat ++ u16LE (pyInt st.power % 65536).toNat)
  else none

/-- Modelled from the spec: decoder for the Indoor Bike Data record layout
(uint16 flags, uint16 speed times 100 km/h, uint16 cadence times 2 rpm, int16
power in watts, all little-endian).  The source contains no decoder; the
spec's codec round-trip property defines this reading from its layout table. -/
def decode_indoor_bike_data (bs : List ℕ) : Option (ℚ × ℚ × ℚ) :=
  match bs with
  | [_f0, _f1, s0, s1, c0, c1, p0, p1] =>
    some (((s0 + 256 * s1 : ℕ) : ℚ) / 100,
          ((c0 + 256 * c1 : ℕ) : ℚ) / 2,
          ((int16LE p0 p1 : ℤ) : ℚ))
  | _ => none

/-- A tick environment with no jitter, every fsolve call raising, and a zero
sqrt model. -/
def envAllErr : TickEnv where
  uPower := 0
  uCadence := 0
  solverMain := .err
  solverTuck := .err
  solverExact := .err
  sq := fun _ => 0

/-- A tick environment with no jitter and every fsolve call returning the root
10 m/s. -/
def envOk10 : TickEnv where
  uPower := 0
  uCadence := 0
  solverMain := .ok 10
  solverTuck := .ok 10
  solverExact := .ok 10
  sq := fun _ => 0

/-- A tick environment with no jitter and every fsolve call returning the root
20 m/s (72 km/h after conversion). -/
def envOk20 : TickEnv where
  uPower := 0
  uCadence := 0
  solverMain := .ok 20
  solverTuck := .ok 20
  solverExact := .ok 20
  sq := fun _ => 0

/-- The end-to-end scenario environment: power jitter draw at 49/50 of the
variance amplitude (a possible random.uniform sample), no cadence jitter,
solver root 10 m/s. -/
def envJitter4950 : TickEnv where
  uPower := 49/50
  uCadence := 0
  solverMain := .ok 10
  solverTuck := .ok 10
  solverExact := .ok 10
  sq := fun _ => 0

/-- Running state riding at the maximum manual power, otherwise default. -/
def stMaxPower : TrainerState :=
  {defaultState with is_stopped := false, base_power := 2000, cadence := 85}

/-- Default state with ERG mode engaged at a 200 W target. -/
def stErg200 : TrainerState :=
  {defaultState with erg_mode_enabled := true, target_power := 200, power := 200,
                     is_stopped := false}

/-- A stopped state that is still flagged as super tucked, with a saved
pre-tuck base power of 150 W. -/
def stStoppedTucked : TrainerState :=
  {defaultState with is_stopped := true, is_super_tuck := true,
                     pre_super_tuck_base_power := 150, base_power := 0,
                     current_grade := -10, speed := 80}

/-- The state of the super-tuck hysteresis test sentence: riding at 61.2 km/h
on a corrected grade of -8.1 percent, ERG off, exact variance with zero
target so the tick is deterministic. -/
def stSpeed612 : TrainerState :=
  {defaultState with is_stopped := false, speed := 612/10,
                     current_grade := -81/10, base_power := 150,
                     power_variance_level := .exact, power_variance_percent := 0,
                     target_power := 0}

/-- A running state on a corrected grade of -8.1 percent with 150 W base
power and standard variance. -/
def stGrade81 : TrainerState :=
  {defaultState with is_stopped := false, base_power := 150,
                     current_grade := -81/10, cadence := 85}

/-- A super-tucked running state on a corrected grade of -2.9 percent with a
saved pre-tuck base power of 150 W. -/
def stTuckedGrade29 : TrainerState :=
  {defaultState with is_stopped := false, is_super_tuck := true,
                     pre_super_tuck_base_power := 150, base_power := 150,
                     current_grade := -29/10, speed := 80, cadence := 85}

/-- An exact-variance running state whose target power 3000 W exceeds the
2000 W clamp, ERG off. -/
def stExact3000 : TrainerState :=
  {defaultState with is_stopped := false, power_variance_level := .exact,
                     power_variance_percent := 0, target_power := 3000,
                     base_power := 100}

/-- A concrete in-range telemetry state for the codec round-trip witness. -/
def stCodec : TrainerState :=
  {defaultState with speed := 3247/100, cadence := 925/10, power := 24930/100}

/-- The stopped-state zero invariant of the spec: a stopped trainer reports
zero power, cadence and speed. -/
def stopped_zero_invariant (st : TrainerState) : Prop :=
  st.is_stopped = true → st.power = 0 ∧ st.cadence = 0 ∧ st.speed = 0

/-! Helper lemmas shared by several claims. -/

lemma clamp_nonneg (c x : ℚ) : 0 ≤ max 0 (min c x) := le_max_left 0 _

lemma clamp_le (c x : ℚ) (hc : 0 ≤ c) : max 0 (min c x) ≤ c :=
  max_le hc (min_le_left _ _)

lemma calc_ok_nonneg (sq : ℚ → ℚ) (p g w v : ℚ) :
    0 ≤ calculate_bike_speed sq p g w (.ok v) := by
  simp only [calculate_bike_speed]
  exact le_max_left 0 _

lemma calc_ok_le (sq : ℚ → ℚ) (p g w v : ℚ) :
    calculate_bike_speed sq p g w (.ok v) ≤ 150 := by
  simp only [calculate_bike_speed]
  exact max_le (by norm_num) (min_le_left _ _)

lemma clamp36_pos (x : ℚ) (hx : 0 < x) : 0 < max 0 (min 150 (x * (36/10))) :=
  lt_of_lt_of_le (lt_min (by norm_num) (mul_pos hx (by norm_num))) (le_max_right _ _)

lemma calc_ok_pos (sq : ℚ → ℚ) (p g w v : ℚ) (hv : v ≠ 0) :
    0 < calculate_bike_speed sq p g w (.ok v) := by
  simp only [calculate_bike_speed]
  apply clamp36_pos
  split_ifs with h1 h2 h3
  · exact lt_of_lt_of_le (by norm_num) (le_max_left _ _)
  · exact lt_of_lt_of_le (by norm_num) (le_max_left _ _)
  · exact lt_of_lt_of_le (by norm_num) (le_max_left _ _)
  · exact lt_of_le_of_ne (not_lt.mp h1) (Ne.symm hv)

lemma calc_bounds_of_not_err (sq : ℚ → ℚ) (p g w : ℚ) (out : SolverOutcome)
    (h : out ≠ SolverOutcome.err) :
    0 ≤ calculate_bike_speed sq p g w out ∧ calculate_bike_speed sq p g w out ≤ 150 := by
  cases out with
  | ok v => exact ⟨calc_ok_nonneg sq p g w v, calc_ok_le sq p g w v⟩
  | err => exact absurd rfl h

lemma tickSpeed_bounds (st : TrainerState) (env : TickEnv)
    (h : env.solverMain.nonzeroRoot) :
    0 ≤ tickSpeed st env ∧ tickSpeed st env ≤ 150 := by
  cases hout : env.solverMain with
  | err => rw [hout] at h; exact absurd h id
  | ok v =>
    rw [hout] at h
    have hv : v ≠ 0 := h
    unfold tickSpeed
    rw [hout]
    split_ifs with h1 h2
    · exact ⟨calc_ok_nonneg _ _ _ _ _, calc_ok_le _ _ _ _ _⟩
    · exact absurd (calc_ok_pos env.sq st.power st.current_grade
        st.current_wind_speed v hv) h2
    · norm_num

/-- Evaluation helper: a non-stopped tick is the composition of the four
stages. -/
lemma simulate_eval (st : TrainerState) (env : TickEnv) (s1 s2 s3 s4 : TrainerState)
    (h0 : st.is_stopped = false)
    (hb : tickBranch st env = s1) (hc : clampPowerCadence s1 = s2)
    (hs : tickSpeedUpdate s2 env = s3) (ht : tickTuck s3 env = s4) :
    simulate_realistic_data st env = s4 := by
  rw [simulate_realistic_data, tickMidState, hb, hc, hs, ht, h0]
  simp

lemma tickTuck_pc_bounds (s : TrainerState) (env : TickEnv)
    (hp : 0 ≤ s.power ∧ s.power ≤ 2000) (hc : 0 ≤ s.cadence ∧ s.cadence ≤ 200) :
    (0 ≤ (tickTuck s env).power ∧ (tickTuck s env).power ≤ 2000) ∧
    (0 ≤ (tickTuck s env).cadence ∧ (tickTuck s env).cadence ≤ 200) := by
  unfold tickTuck
  split_ifs <;> refine ⟨⟨?_, ?_⟩, ?_, ?_⟩ <;>
    first | exact hp.1 | exact hp.2 | exact hc.1 | exact hc.2 | norm_num

lemma tickTuck_speed_bounds (s : TrainerState) (env : TickEnv)
    (hs : 0 ≤ s.speed ∧ s.speed ≤ 150) (ht : env.solverTuck ≠ SolverOutcome.err) :
    0 ≤ (tickTuck s env).speed ∧ (tickTuck s env).speed ≤ 150 := by
  unfold tickTuck
  split_ifs <;> first
    | exact hs
    | exact calc_bounds_of_not_err env.sq 0 s.current_grade s.current_wind_speed
        env.solverTuck ht

/-- Claim C1, amended (corrected).  Every tick leaves power in the interval
from 0 to 2000 and cadence in the interval from 0 to 200.  The speed lies in
the interval from 0 to 150 provided the main fsolve call returned a nonzero
root and the super-tuck coasting fsolve call did not raise; when the solver
raises, the fallback formulas of lines 667-679 and line 756 are returned
without the 150 km/h clamp (see the counterexample). -/
theorem C1_clamping_amended (st : TrainerState) (env : TickEnv) :
    (0 ≤ (simulate_realistic_data st env).power ∧
      (simulate_realistic_data st env).power ≤ 2000) ∧
    (0 ≤ (simulate_realistic_data st env).cadence ∧
      (simulate_realistic_data st env).cadence ≤ 200) ∧
    (env.solverMain.nonzeroRoot → env.solverTuck ≠ SolverOutcome.err →
      0 ≤ (simulate_realistic_data st env).speed ∧
        (simulate_realistic_data st env).speed ≤ 150) := by
  by_cases hstop : st.is_stopped = true
  · have h : simulate_realistic_data st env =
        {st with power := 0, cadence := 0, speed := 0, is_super_tuck := false} := by
      rw [simulate_realistic_data, if_pos hstop]
    rw [h]
    exact ⟨⟨by norm_num, by norm_num⟩, ⟨by norm_num, by norm_num⟩,
      fun _ _ => ⟨by norm_num, by norm_num⟩⟩
  · have hsim : simulate_realistic_data st env =
        tickTuck (tickSpeedUpdate (clampPowerCadence (tickBranch st env)) env) env := by
      rw [simulate_realistic_data, tickMidState, if_neg hstop]
    rw [hsim]
    have hp : 0 ≤ (tickSpeedUpdate (clampPowerCadence (tickBranch st env)) env).power ∧
        (tickSpeedUpdate (clampPowerCadence (tickBranch st env)) env).power ≤ 2000 :=
      ⟨clamp_nonneg _ _, clamp_le _ _ (by norm_num)⟩
    have hc : 0 ≤ (tickSpeedUpdate (clampPowerCadence (tickBranch st env)) env).cadence ∧
        (tickSpeedUpdate (clampPowerCadence (tickBranch st env)) env).cadence ≤ 200 :=
      ⟨clamp_nonneg _ _, clamp_le _ _ (by norm_num)⟩
    refine ⟨(tickTuck_pc_bounds _ env hp hc).1, (tickTuck_pc_bounds _ env hp hc).2,
      fun hmain htuck => tickTuck_speed_bounds _ env ?_ htuck⟩
    exact tickSpeed_bounds (clampPowerCadence (tickBranch st env)) env hmain

/-- Claim C1, witness: at a concrete running state and an environment whose
solver calls all return the root 10 m/s, the hypotheses of the amended
theorem hold and the speed bound follows. -/
theorem C1_clamping_witness :
    envOk10.solverMain.nonzeroRoot ∧ envOk10.solverTuck ≠ SolverOutcome.err ∧
    (0 ≤ (simulate_realistic_data stMaxPower envOk10).speed ∧
      (simulate_realistic_data stMaxPower envOk10).speed ≤ 150) := by
  have h1 : envOk10.solverMain.nonzeroRoot := by
    show SolverOutcome.nonzeroRoot (.ok 10)
    norm_num [SolverOutcome.nonzeroRoot]
  have h2 : envOk10.solverTuck ≠ SolverOutcome.err := by decide
  exact ⟨h1, h2, (C1_clamping_amended stMaxPower envOk10).2.2 h1 h2⟩

/-- Claim C1, counterexample: a tick at 2000 W base power on flat ground in
which the fsolve call raises takes the unclamped fallback 15 + power / 10 of
line 671 and ends with speed 215 km/h, outside the claimed range. -/
theorem C1_clamping_counterexample :
    (simulate_realistic_data stMaxPower envAllErr).speed = 215 ∧
    ¬ (simulate_realistic_data stMaxPower envAllErr).speed ≤ 150 := by
  have hb : tickBranch stMaxPower envAllErr =
      {stMaxPower with power := 2000, cadence := 85} := by
    norm_num [tickBranch, stMaxPower, defaultState, envAllErr, reduceCtorEq]
    decide
  have hc : clampPowerCadence {stMaxPower with power := 2000, cadence := 85} =
      {stMaxPower with power := 2000, cadence := 85} := by
    norm_num [clampPowerCadence, stMaxPower, defaultState]
  have hs : tickSpeedUpdate {stMaxPower with power := 2000, cadence := 85} envAllErr =
      {stMaxPower with power := 2000, cadence := 85, speed := 215} := by
    norm_num [tickSpeedUpdate, tickSpeed, calculate_bike_speed, stMaxPower,
      defaultState, envAllErr]
  have ht : tickTuck {stMaxPower with power := 2000, cadence := 85, speed := 215}
      envAllErr = {stMaxPower with power := 2000, cadence := 85, speed := 215} := by
    norm_num [tickTuck, check_can_enter_super_tuck, check_should_exit_super_tuck,
      super_tuck_speed_threshold, super_tuck_grade_threshold_entry,
      super_tuck_grade_threshold_exit, stMaxPower, defaultState, envAllErr]
  rw [simulate_eval stMaxPower envAllErr _ _ _ _ rfl hb hc hs ht]
  norm_num

/-- Claim C2, amended (corrected).  stop_power zeroes power, cadence and speed
and sets the stopped flag regardless of prior state; every tick of a stopped
state re-zeroes them and keeps the flag; and every inbound control-point frame
preserves the stopped-implies-zero invariant except opcode 0x01 (Reset, which
writes base_cadence into cadence) and opcode 0x05 with a positive decoded
target (which writes the target into power) — 0x05 with a nonpositive target
zeroes power and preserves the invariant.  The excluded frames can break it
while the flag stays set (see the counterexample). -/
theorem C2_stopped_amended :
    (∀ st : TrainerState, (stop_power st).power = 0 ∧ (stop_power st).cadence = 0 ∧
      (stop_power st).speed = 0 ∧ (stop_power st).is_stopped = true) ∧
    (∀ (st : TrainerState) (env : TickEnv), st.is_stopped = true →
      (simulate_realistic_data st env).power = 0 ∧
      (simulate_realistic_data st env).cadence = 0 ∧
      (simulate_realistic_data st env).speed = 0 ∧
      (simulate_realistic_data st env).is_stopped = true) ∧
    (∀ (st : TrainerState) (b : ℕ) (rest : List ℕ), b ≠ 1 →
      (b = 5 → int16LE (rest.getD 0 0) (rest.getD 1 0) ≤ 0) →
      stopped_zero_invariant st →
      stopped_zero_invariant (handle_control_point_command st (b :: rest)).1) := by
  refine ⟨fun st => ⟨rfl, rfl, rfl, rfl⟩, fun st env h => ?_, fun st b rest hb1 hb5 hinv => ?_⟩
  · rw [simulate_realistic_data, if_pos h]
    exact ⟨rfl, rfl, rfl, h⟩
  · by_cases h0 : b = 0
    · subst h0; exact hinv
    by_cases h5 : b = 5
    · subst h5
      have ht : int16LE (rest.getD 0 0) (rest.getD 1 0) ≤ 0 := hb5 rfl
      have h : handle_control_point_command st (5 :: rest) =
          if 2 ≤ rest.length then
            if 0 < int16LE (rest.getD 0 0) (rest.getD 1 0) then
              ({st with target_power := (int16LE (rest.getD 0 0) (rest.getD 1 0) : ℚ),
                        erg_mode_enabled := true,
                        power := (int16LE (rest.getD 0 0) (rest.getD 1 0) : ℚ),
                        base_power := 0},
               some (controlPointResponse 5 1))
            else
              ({st with target_power := (int16LE (rest.getD 0 0) (rest.getD 1 0) : ℚ),
                        erg_mode_enabled := true, power := 0},
               some (controlPointResponse 5 1))
          else (st, none) := rfl
      rw [h]
      split_ifs with hl hpos
      · exact absurd hpos (not_lt.mpr ht)
      · intro hs
        exact ⟨rfl, (hinv hs).2.1, (hinv hs).2.2⟩
      · exact hinv
    by_cases h4 : b = 4
    · subst h4
      have h : handle_control_point_command st (4 :: rest) =
          if 1 ≤ rest.length then
            ({st with target_resistance := int8 (rest.getD 0 0)},
             some (controlPointResponse 4 1))
          else (st, none) := rfl
      rw [h]
      split_ifs <;> exact hinv
    by_cases h7 : b = 7
    · subst h7; exact hinv
    by_cases h8 : b = 8
    · subst h8; exact hinv
    by_cases h17 : b = 17
    · subst h17
      have h : handle_control_point_command st (17 :: rest) =
          if 6 ≤ rest.length then
            ({(if st.erg_mode_enabled = true then
                 {st with erg_mode_enabled := false, target_power := 0} else st) with
               current_grade :=
                 correct_grade ((int16LE (rest.getD 2 0) (rest.getD 3 0) : ℚ) / 100),
               current_wind_speed := (int16LE (rest.getD 0 0) (rest.getD 1 0) : ℚ) / 1000},
             some (controlPointResponse 17 1))
          else
            ((if st.erg_mode_enabled = true then
               {st with erg_mode_enabled := false, target_power := 0} else st), none) := rfl
      rw [h]
      split_ifs <;> exact hinv
    have h : handle_control_point_command st (b :: rest) =
        (st, some (controlPointResponse b 2)) := by
      simp only [handle_control_point_command]
      rw [if_neg h0, if_neg hb1, if_neg h4, if_neg h5, if_neg h7, if_neg h8, if_neg h17]
    rw [h]
    exact hinv

/-- Claim C2, witness: the amended theorem applied to the stopped default
state, a tick environment, and a Set Target Power frame whose decoded target
is 0 (nonpositive, so the invariant is preserved). -/
theorem C2_stopped_witness :
    ((stop_power defaultState).power = 0 ∧ (stop_power defaultState).cadence = 0 ∧
      (stop_power defaultState).speed = 0 ∧ (stop_power defaultState).is_stopped = true) ∧
    ((stop_power defaultState).is_stopped = true ∧
      (simulate_realistic_data (stop_power defaultState) envOk10).power = 0 ∧
      (simulate_realistic_data (stop_power defaultState) envOk10).cadence = 0 ∧
      (simulate_realistic_data (stop_power defaultState) envOk10).speed = 0 ∧
      (simulate_realistic_data (stop_power defaultState) envOk10).is_stopped = true) ∧
    ((5 : ℕ) ≠ 1 ∧ int16LE (([0, 0] : List ℕ).getD 0 0) (([0, 0] : List ℕ).getD 1 0) ≤ 0 ∧
      stopped_zero_invariant (stop_power defaultState) ∧
      stopped_zero_invariant
        (handle_control_point_command (stop_power defaultState) [5, 0, 0]).1) := by
  obtain ⟨p1, p2, p3⟩ := C2_stopped_amended
  have hinv : stopped_zero_invariant (stop_power defaultState) := fun _ => ⟨rfl, rfl, rfl⟩
  exact ⟨p1 defaultState, ⟨rfl, p2 (stop_power defaultState) envOk10 rfl⟩,
    by decide, by decide, hinv,
    p3 (stop_power defaultState) 5 [0, 0] (by decide) (fun _ => by decide) hinv⟩

/-- Claim C2, counterexample: after stop, the inbound Reset frame (opcode
0x01) writes base_cadence 85 into cadence while the stopped flag stays true,
so the stopped-implies-zero invariant is not preserved by every inbound
control-point command. -/
theorem C2_stopped_counterexample :
    (handle_control_point_command (stop_power defaultState) [1]).1.is_stopped = true ∧
    (handle_control_point_command (stop_power defaultState) [1]).1.cadence = 85 := by
  constructor <;> rfl

/-- Claim C3, amended (corrected).  A zero-length frame is a no-op; a
truncated 0x04 or 0x05 frame sends no response and applies no mutation; a
truncated 0x11 frame sends no response, but when ERG mode is enabled it still
clears erg_mode_enabled and target_power, because the source clears them
before the payload length check (lines 489-493). -/
theorem C3_truncated_amended (st : TrainerState) :
    handle_control_point_command st [] = (st, none) ∧
    handle_control_point_command st [4] = (st, none) ∧
    (∀ l : List ℕ, l.length ≤ 1 →
      handle_control_point_command st (5 :: l) = (st, none)) ∧
    (∀ l : List ℕ, l.length ≤ 5 →
      handle_control_point_command st (17 :: l) =
        ((if st.erg_mode_enabled = true then
           {st with erg_mode_enabled := false, target_power := 0} else st), none)) := by
  refine ⟨rfl, rfl, fun l hl => ?_, fun l hl => ?_⟩
  · have hlen : ¬ 2 ≤ l.length := by omega
    simp only [handle_control_point_command]
    norm_num [hlen]
  · have hlen : ¬ 6 ≤ l.length := by omega
    simp only [handle_control_point_command]
    norm_num [hlen]

/-- Claim C3, witness: the amended theorem applied to a truncated 0x05 frame
with a 1-byte payload and a truncated 0x11 frame with a 3-byte payload on an
ERG-enabled state. -/
theorem C3_truncated_witness :
    ([(0 : ℕ)].length ≤ 1 ∧
      handle_control_point_command stErg200 (5 :: [0]) = (stErg200, none)) ∧
    ([(1 : ℕ), 2, 3].length ≤ 5 ∧
      handle_control_point_command stErg200 (17 :: [1, 2, 3]) =
        ({stErg200 with erg_mode_enabled := false, target_power := 0}, none)) := by
  obtain ⟨-, -, h5, h17⟩ := C3_truncated_amended stErg200
  refine ⟨⟨by decide, h5 [0] (by decide)⟩, by decide, ?_⟩
  have h2 : (if stErg200.erg_mode_enabled = true then
      {stErg200 with erg_mode_enabled := false, target_power := 0} else stErg200) =
      {stErg200 with erg_mode_enabled := false, target_power := 0} := if_pos rfl
  have h := h17 [1, 2, 3] (by decide)
  rw [h2] at h
  exact h

/-- Claim C3, counterexample: the truncated frame consisting of the lone
opcode byte 0x11 received while ERG mode is enabled sends no response yet
mutates the state, clearing erg_mode_enabled, so truncated frames do not
always leave the trainer state untouched. -/
theorem C3_truncated_counterexample :
    stErg200.erg_mode_enabled = true ∧
    (handle_control_point_command stErg200 [17]).2 = none ∧
    (handle_control_point_command stErg200 [17]).1.erg_mode_enabled = false ∧
    (handle_control_point_command stErg200 [17]).1 ≠ stErg200 := by
  refine ⟨rfl, rfl, rfl, fun h => ?_⟩
  exact absurd (congrArg TrainerState.erg_mode_enabled h) (by decide)

/-- Claim C4 (confirmed).  Handling opcode 0x05 with an int16 target-power
payload immediately sets target_power to the payload and enables ERG mode;
a positive target also overrides power and clears base_power, a nonpositive
target zeroes power; a success response is sent.  In particular target 200
immediately yields power 200, ERG enabled, base_power 0. -/
theorem C4_target_power (st : TrainerState) (b0 b1 : ℕ) :
    handle_control_point_command st [5, b0, b1] =
      (if 0 < int16LE b0 b1 then
        {st with target_power := (int16LE b0 b1 : ℚ), erg_mode_enabled := true,
                 power := (int16LE b0 b1 : ℚ), base_power := 0}
       else
        {st with target_power := (int16LE b0 b1 : ℚ), erg_mode_enabled := true,
                 power := 0},
       some (controlPointResponse 5 1)) ∧
    (handle_control_point_command st [5, 200, 0]).1.power = 200 ∧
    (handle_control_point_command st [5, 200, 0]).1.erg_mode_enabled = true ∧
    (handle_control_point_command st [5, 200, 0]).1.base_power = 0 ∧
    (handle_control_point_command st [5, 200, 0]).1.target_power = 200 := by
  have h : handle_control_point_command st [5, b0, b1] =
      if 0 < int16LE b0 b1 then
        ({st with target_power := (int16LE b0 b1 : ℚ), erg_mode_enabled := true,
                  power := (int16LE b0 b1 : ℚ), base_power := 0},
         some (controlPointResponse 5 1))
      else
        ({st with target_power := (int16LE b0 b1 : ℚ), erg_mode_enabled := true,
                  power := 0},
         some (controlPointResponse 5 1)) := rfl
  refine ⟨?_, ?_, rfl, rfl, ?_⟩
  · rw [h]
    split_ifs <;> rfl
  · show ((int16LE 200 0 : ℤ) : ℚ) = 200
    norm_num [int16LE]
  · show ((int16LE 200 0 : ℤ) : ℚ) = 200
    norm_num [int16LE]

lemma tickBranch_untouched (st : TrainerState) (env : TickEnv) :
    (tickBranch st env).current_grade = st.current_grade ∧
    (tickBranch st env).current_wind_speed = st.current_wind_speed ∧
    (tickBranch st env).base_power = st.base_power ∧
    (tickBranch st env).pre_super_tuck_base_power = st.pre_super_tuck_base_power ∧
    (tickBranch st env).erg_mode_enabled = st.erg_mode_enabled ∧
    (tickBranch st env).is_stopped = st.is_stopped := by
  simp only [tickBranch]
  split_ifs <;> exact ⟨rfl, rfl, rfl, rfl, rfl, rfl⟩

lemma tickBranch_tuck_of_not_erg (st : TrainerState) (env : TickEnv)
    (herg : st.erg_mode_enabled = false) :
    (tickBranch st env).is_super_tuck =
      (if st.power_variance_level = VarianceLevel.exact then false
       else st.is_super_tuck) := by
  simp only [tickBranch, herg]
  split_ifs <;> simp_all

lemma tickMidState_grade (st : TrainerState) (env : TickEnv) :
    (tickMidState st env).current_grade = st.current_grade :=
  (tickBranch_untouched st env).1

lemma tickMidState_wind (st : TrainerState) (env : TickEnv) :
    (tickMidState st env).current_wind_speed = st.current_wind_speed :=
  (tickBranch_untouched st env).2.1

lemma tickMidState_base_power (st : TrainerState) (env : TickEnv) :
    (tickMidState st env).base_power = st.base_power :=
  (tickBranch_untouched st env).2.2.1

lemma tickMidState_pre_tuck (st : TrainerState) (env : TickEnv) :
    (tickMidState st env).pre_super_tuck_base_power = st.pre_super_tuck_base_power :=
  (tickBranch_untouched st env).2.2.2.1

lemma tickMidState_erg (st : TrainerState) (env : TickEnv) :
    (tickMidState st env).erg_mode_enabled = st.erg_mode_enabled :=
  (tickBranch_untouched st env).2.2.2.2.1

lemma tickMidState_tuck_of_not_erg (st : TrainerState) (env : TickEnv)
    (herg : st.erg_mode_enabled = false) :
    (tickMidState st env).is_super_tuck =
      (if st.power_variance_level = VarianceLevel.exact then false
       else st.is_super_tuck) :=
  tickBranch_tuck_of_not_erg st env herg

lemma simulate_not_stopped (st : TrainerState) (env : TickEnv)
    (hstop : st.is_stopped = false) :
    simulate_realistic_data st env = tickTuck (tickMidState st env) env := by
  rw [simulate_realistic_data, if_neg (by simp [hstop])]

/-- Claim C5, amended (corrected).  For a non-stopped, non-ERG tick, with
speed meaning the value the tick has just recomputed when the hysteresis
check runs (the tickMidState speed): from a disengaged state the tick engages
super tuck exactly when that speed is at least 70 km/h and the grade is at
most -8 percent, saving base_power and forcing power
and cadence to 0 with speed recomputed by the solver at power 0; from an
engaged state, provided the variance level is not exact (an exact-variance
tick silently drops the engaged flag on line 722 without restoring), the tick
exits exactly when that speed is below 70 km/h or the grade is at least
-3 percent, restoring the saved base_power, and otherwise keeps power and
cadence at 0 and recomputes the coasting speed.  A stopped tick clears the
engaged flag without restoring base_power (see the counterexample). -/
theorem C5_super_tuck_amended (st : TrainerState) (env : TickEnv)
    (hstop : st.is_stopped = false) (herg : st.erg_mode_enabled = false) :
    (st.is_super_tuck = false →
      (((simulate_realistic_data st env).is_super_tuck = true) ↔
        (super_tuck_speed_threshold ≤ (tickMidState st env).speed ∧
         st.current_grade ≤ super_tuck_grade_threshold_entry)) ∧
      (super_tuck_speed_threshold ≤ (tickMidState st env).speed →
        st.current_grade ≤ super_tuck_grade_threshold_entry →
        (simulate_realistic_data st env).pre_super_tuck_base_power = st.base_power ∧
        (simulate_realistic_data st env).power = 0 ∧
        (simulate_realistic_data st env).cadence = 0 ∧
        (simulate_realistic_data st env).speed =
          calculate_bike_speed env.sq 0 st.current_grade st.current_wind_speed
            env.solverTuck)) ∧
    (st.is_super_tuck = true → st.power_variance_level ≠ VarianceLevel.exact →
      (((simulate_realistic_data st env).is_super_tuck = false) ↔
        ((tickMidState st env).speed < super_tuck_speed_threshold ∨
         super_tuck_grade_threshold_exit ≤ st.current_grade)) ∧
      (((tickMidState st env).speed < super_tuck_speed_threshold ∨
         super_tuck_grade_threshold_exit ≤ st.current_grade) →
        (simulate_realistic_data st env).base_power = st.pre_super_tuck_base_power) ∧
      (¬ ((tickMidState st env).speed < super_tuck_speed_threshold ∨
          super_tuck_grade_threshold_exit ≤ st.current_grade) →
        (simulate_realistic_data st env).power = 0 ∧
        (simulate_realistic_data st env).cadence = 0 ∧
        (simulate_realistic_data st env).speed =
          calculate_bike_speed env.sq 0 st.current_grade st.current_wind_speed
            env.solverTuck)) := by
  have hgrade := tickMidState_grade st env
  have hwind := tickMidState_wind st env
  have hbase := tickMidState_base_power st env
  have hpre := tickMidState_pre_tuck st env
  have hmerg : (tickMidState st env).erg_mode_enabled = false :=
    (tickMidState_erg st env).trans herg
  have hsim := simulate_not_stopped st env hstop
  constructor
  · intro htuck
    have hmtuck : (tickMidState st env).is_super_tuck = false := by
      rw [tickMidState_tuck_of_not_erg st env herg, htuck]
      split_ifs <;> rfl
    have ht1 : tickTuck (tickMidState st env) env =
        if check_can_enter_super_tuck (tickMidState st env) then
          {tickMidState st env with
            pre_super_tuck_base_power := (tickMidState st env).base_power,
            is_super_tuck := true, power := 0, cadence := 0,
            speed := calculate_bike_speed env.sq 0 (tickMidState st env).current_grade
              (tickMidState st env).current_wind_speed env.solverTuck,
            super_tuck_speed := calculate_bike_speed env.sq 0
              (tickMidState st env).current_grade
              (tickMidState st env).current_wind_speed env.solverTuck}
        else tickMidState st env := by
      unfold tickTuck
      rw [if_neg (by simp [hmerg]), if_neg (by simp [hmtuck])]
    constructor
    · by_cases hc : check_can_enter_super_tuck (tickMidState st env)
      · rw [hsim, ht1, if_pos hc]
        refine iff_of_true rfl ?_
        obtain ⟨h1, h2⟩ := hc
        exact ⟨h1, by rw [← hgrade]; exact h2⟩
      · rw [hsim, ht1, if_neg hc]
        refine iff_of_false (by simp [hmtuck]) ?_
        intro hcond
        exact hc ⟨hcond.1, by rw [hgrade]; exact hcond.2⟩
    · intro hsp hgr
      have hc : check_can_enter_super_tuck (tickMidState st env) :=
        ⟨hsp, by rw [hgrade]; exact hgr⟩
      rw [hsim, ht1, if_pos hc]
      refine ⟨hbase, rfl, rfl, ?_⟩
      show calculate_bike_speed env.sq 0 (tickMidState st env).current_grade
        (tickMidState st env).current_wind_speed env.solverTuck = _
      rw [hgrade, hwind]
  · intro htuck hexact
    have hmtuck : (tickMidState st env).is_super_tuck = true := by
      rw [tickMidState_tuck_of_not_erg st env herg, htuck, if_neg hexact]
    have ht2 : tickTuck (tickMidState st env) env =
        if check_should_exit_super_tuck (tickMidState st env) then
          {tickMidState st env with
            base_power := (tickMidState st env).pre_super_tuck_base_power,
            is_super_tuck := false}
        else
          {tickMidState st env with
            power := 0, cadence := 0,
            speed := calculate_bike_speed env.sq 0 (tickMidState st env).current_grade
              (tickMidState st env).current_wind_speed env.solverTuck,
            super_tuck_speed := calculate_bike_speed env.sq 0
              (tickMidState st env).current_grade
              (tickMidState st env).current_wind_speed env.solverTuck} := by
      unfold tickTuck
      rw [if_neg (by simp [hmerg]), if_pos hmtuck]
    refine ⟨?_, ?_, ?_⟩
    · by_cases hc : check_should_exit_super_tuck (tickMidState st env)
      · rw [hsim, ht2, if_pos hc]
        refine iff_of_true rfl ?_
        rcases hc with h | h
        · exact Or.inl h
        · exact Or.inr (by rw [← hgrade]; exact h)
      · rw [hsim, ht2, if_neg hc]
        refine iff_of_false (by simp [hmtuck]) ?_
        intro hcond
        refine hc ?_
        rcases hcond with h | h
        · exact Or.inl h
        · exact Or.inr (by rw [hgrade]; exact h)
    · intro hcond
      have hc : check_should_exit_super_tuck (tickMidState st env) := by
        rcases hcond with h | h
        · exact Or.inl h
        · exact Or.inr (by rw [hgrade]; exact h)
      rw [hsim, ht2, if_pos hc]
      exact hpre
    · intro hcond
      have hc : ¬ check_should_exit_super_tuck (tickMidState st env) := by
        intro h
        refine hcond ?_
        rcases h with h | h
        · exact Or.inl h
        · exact Or.inr (by rw [← hgrade]; exact h)
      rw [hsim, ht2, if_neg hc]
      refine ⟨rfl, rfl, ?_⟩
      show calculate_bike_speed env.sq 0 (tickMidState st env).current_grade
        (tickMidState st env).current_wind_speed env.solverTuck = _
      rw [hgrade, hwind]

/-- Claim C5, witness: the amended theorem applied to a running 150 W state
on a grade of -8.1 percent with the solver returning 20 m/s. -/
theorem C5_super_tuck_witness :
    stGrade81.is_stopped = false ∧ stGrade81.erg_mode_enabled = false ∧
    stGrade81.is_super_tuck = false ∧
    (((simulate_realistic_data stGrade81 envOk20).is_super_tuck = true) ↔
      (super_tuck_speed_threshold ≤ (tickMidState stGrade81 envOk20).speed ∧
       stGrade81.current_grade ≤ super_tuck_grade_threshold_entry)) :=
  ⟨rfl, rfl, rfl, ((C5_super_tuck_amended stGrade81 envOk20 rfl rfl).1 rfl).1⟩

/-- Claim C5, counterexample: a stopped tick of a state that is still flagged
as super tucked clears the engaged flag without restoring the saved
base_power of 150 W, so exiting super tuck does not always restore it. -/
theorem C5_super_tuck_counterexample :
    stStoppedTucked.is_super_tuck = true ∧
    stStoppedTucked.pre_super_tuck_base_power = 150 ∧
    (simulate_realistic_data stStoppedTucked envOk10).is_super_tuck = false ∧
    (simulate_realistic_data stStoppedTucked envOk10).base_power = 0 :=
  ⟨rfl, rfl, rfl, rfl⟩

lemma tickTuck_not_tucked (s : TrainerState) (env : TickEnv)
    (herg : s.erg_mode_enabled = false) (htuck : s.is_super_tuck = false) :
    tickTuck s env =
      if check_can_enter_super_tuck s then
        {s with pre_super_tuck_base_power := s.base_power, is_super_tuck := true,
                power := 0, cadence := 0,
                speed := calculate_bike_speed env.sq 0 s.current_grade
                  s.current_wind_speed env.solverTuck,
                super_tuck_speed := calculate_bike_speed env.sq 0 s.current_grade
                  s.current_wind_speed env.solverTuck}
      else s := by
  unfold tickTuck
  rw [if_neg (by simp [herg]), if_neg (by simp [htuck])]

lemma tickTuck_tucked (s : TrainerState) (env : TickEnv)
    (herg : s.erg_mode_enabled = false) (htuck : s.is_super_tuck = true) :
    tickTuck s env =
      if check_should_exit_super_tuck s then
        {s with base_power := s.pre_super_tuck_base_power, is_super_tuck := false}
      else
        {s with power := 0, cadence := 0,
                speed := calculate_bike_speed env.sq 0 s.current_grade
                  s.current_wind_speed env.solverTuck,
                super_tuck_speed := calculate_bike_speed env.sq 0 s.current_grade
                  s.current_wind_speed env.solverTuck} := by
  unfold tickTuck
  rw [if_neg (by simp [herg]), if_pos htuck]

/-- Claim C6, amended (corrected).  A state with pre-tick speed 61.2 km/h
does not engage super tuck: the tick recomputes speed before the hysteresis
check, and the entry threshold is 70 km/h (line 104), so engagement happens
exactly when the recomputed speed reaches 70.  Amended: for a non-stopped,
non-ERG, disengaged tick on a corrected grade of -8.1 percent whose
recomputed speed is at least the 70 km/h threshold, the tick engages super
tuck with power and cadence 0; and a subsequent non-stopped, non-ERG,
non-exact-variance tick of an engaged state with grade -2.9 percent
disengages it and restores the saved base_power. -/
theorem C6_hysteresis_amended :
    (∀ (st : TrainerState) (env : TickEnv), st.is_stopped = false →
      st.erg_mode_enabled = false → st.is_super_tuck = false →
      st.current_grade = -81/10 →
      super_tuck_speed_threshold ≤ (tickMidState st env).speed →
      (simulate_realistic_data st env).is_super_tuck = true ∧
      (simulate_realistic_data st env).power = 0 ∧
      (simulate_realistic_data st env).cadence = 0) ∧
    (∀ (st : TrainerState) (env : TickEnv), st.is_stopped = false →
      st.erg_mode_enabled = false → st.is_super_tuck = true →
      st.power_variance_level ≠ VarianceLevel.exact →
      st.current_grade = -29/10 →
      (simulate_realistic_data st env).is_super_tuck = false ∧
      (simulate_realistic_data st env).base_power = st.pre_super_tuck_base_power) := by
  constructor
  · intro st env hstop herg htuck hgr hsp
    have hgrade := tickMidState_grade st env
    have hmerg : (tickMidState st env).erg_mode_enabled = false :=
      (tickMidState_erg st env).trans herg
    have hmtuck : (tickMidState st env).is_super_tuck = false := by
      rw [tickMidState_tuck_of_not_erg st env herg, htuck]
      split_ifs <;> rfl
    have hc : check_can_enter_super_tuck (tickMidState st env) := by
      refine ⟨hsp, ?_⟩
      rw [hgrade, hgr]
      norm_num [super_tuck_grade_threshold_entry]
    rw [simulate_not_stopped st env hstop, tickTuck_not_tucked _ env hmerg hmtuck,
      if_pos hc]
    exact ⟨rfl, rfl, rfl⟩
  · intro st env hstop herg htuck hexact hgr
    have hgrade := tickMidState_grade st env
    have hmerg : (tickMidState st env).erg_mode_enabled = false :=
      (tickMidState_erg st env).trans herg
    have hmtuck : (tickMidState st env).is_super_tuck = true := by
      rw [tickMidState_tuck_of_not_erg st env herg, htuck, if_neg hexact]
    have hc : check_should_exit_super_tuck (tickMidState st env) := by
      refine Or.inr ?_
      rw [hgrade, hgr]
      norm_num [super_tuck_grade_threshold_exit]
    rw [simulate_not_stopped st env hstop, tickTuck_tucked _ env hmerg hmtuck,
      if_pos hc]
    exact ⟨rfl, tickMidState_pre_tuck st env⟩

/-- Claim C6, witness: the amended theorem applied to a 150 W state on grade
-8.1 percent whose recomputed speed is 72 km/h (solver root 20 m/s), and to
an engaged state on grade -2.9 percent with saved base power 150 W. -/
theorem C6_hysteresis_witness :
    (stGrade81.is_stopped = false ∧ stGrade81.erg_mode_enabled = false ∧
      stGrade81.is_super_tuck = false ∧ stGrade81.current_grade = -81/10 ∧
      super_tuck_speed_threshold ≤ (tickMidState stGrade81 envOk20).speed ∧
      (simulate_realistic_data stGrade81 envOk20).is_super_tuck = true ∧
      (simulate_realistic_data stGrade81 envOk20).power = 0 ∧
      (simulate_realistic_data stGrade81 envOk20).cadence = 0) ∧
    (stTuckedGrade29.is_stopped = false ∧ stTuckedGrade29.erg_mode_enabled = false ∧
      stTuckedGrade29.is_super_tuck = true ∧
      stTuckedGrade29.power_variance_level ≠ VarianceLevel.exact ∧
      stTuckedGrade29.current_grade = -29/10 ∧
      (simulate_realistic_data stTuckedGrade29 envOk20).is_super_tuck = false ∧
      (simulate_realistic_data stTuckedGrade29 envOk20).base_power = 150) := by
  have hb : tickBranch stGrade81 envOk20 = {stGrade81 with power := 507/5, cadence := 85} := by
    norm_num [tickBranch, stGrade81, defaultState, envOk20, reduceCtorEq]
    decide
  have hcl : clampPowerCadence {stGrade81 with power := 507/5, cadence := 85} =
      {stGrade81 with power := 507/5, cadence := 85} := by
    norm_num [clampPowerCadence, stGrade81, defaultState]
  have hmid : tickMidState stGrade81 envOk20 =
      {stGrade81 with power := 507/5, cadence := 85, speed := 72} := by
    rw [tickMidState, hb, hcl]
    norm_num [tickSpeedUpdate, tickSpeed, calculate_bike_speed, stGrade81,
      defaultState, envOk20]
  have hsp : super_tuck_speed_threshold ≤ (tickMidState stGrade81 envOk20).speed := by
    rw [hmid]
    norm_num [super_tuck_speed_threshold, stGrade81, defaultState]
  obtain ⟨p1, p2⟩ := C6_hysteresis_amended
  have h1 := p1 stGrade81 envOk20 rfl rfl rfl rfl hsp
  have h2 := p2 stTuckedGrade29 envOk20 rfl rfl rfl (by decide) rfl
  exact ⟨⟨rfl, rfl, rfl, rfl, hsp, h1.1, h1.2.1, h1.2.2⟩,
    ⟨rfl, rfl, rfl, by decide, rfl, h2.1, h2.2⟩⟩

/-- Claim C6, counterexample: from speed 61.2 km/h and grade -8.1 percent
(ERG off, exact variance with zero target so the tick is deterministic), one
tick does not engage super tuck: speed is recomputed from power before the
check, and even the stored 61.2 km/h is below the 70 km/h entry threshold;
the tick ends with the engaged flag still false and cadence 85, not 0. -/
theorem C6_hysteresis_counterexample :
    stSpeed612.speed = 612/10 ∧ stSpeed612.current_grade = -81/10 ∧
    stSpeed612.erg_mode_enabled = false ∧ stSpeed612.is_stopped = false ∧
    (simulate_realistic_data stSpeed612 envAllErr).is_super_tuck = false ∧
    (simulate_realistic_data stSpeed612 envAllErr).cadence = 85 := by
  have hb : tickBranch stSpeed612 envAllErr =
      {stSpeed612 with power := 0, cadence := 85, speed := 567/10} := by
    norm_num [tickBranch, calculate_bike_speed, stSpeed612, defaultState, envAllErr,
      reduceCtorEq]
    rw [abs_of_nonneg (by norm_num : (0:ℚ) ≤ 81/10)]
    norm_num
  have hcl : clampPowerCadence {stSpeed612 with power := 0, cadence := 85, speed := 567/10} =
      {stSpeed612 with power := 0, cadence := 85, speed := 567/10} := by
    norm_num [clampPowerCadence, stSpeed612, defaultState]
  have hs : tickSpeedUpdate {stSpeed612 with power := 0, cadence := 85, speed := 567/10}
      envAllErr = {stSpeed612 with power := 0, cadence := 85, speed := 0} := by
    norm_num [tickSpeedUpdate, tickSpeed, stSpeed612, defaultState, envAllErr]
  have ht : tickTuck {stSpeed612 with power := 0, cadence := 85, speed := 0} envAllErr =
      {stSpeed612 with power := 0, cadence := 85, speed := 0} := by
    norm_num [tickTuck, check_can_enter_super_tuck, check_should_exit_super_tuck,
      super_tuck_speed_threshold, super_tuck_grade_threshold_entry,
      super_tuck_grade_threshold_exit, stSpeed612, defaultState, envAllErr]
  rw [simulate_eval stSpeed612 envAllErr _ _ _ _ rfl hb hcl hs ht]
  norm_num [stSpeed612, defaultState]

/-- Claim C7 (confirmed).  Grade correction passes nonnegative grades through
and doubles negative grades; and a full 7-byte 0x11 frame stores the
corrected grade (int16 centipercent field divided by 100) into current_grade
and the int16 wind field divided by 1000 into current_wind_speed, on top of
the ERG-clearing prologue. -/
theorem C7_grade_correction :
    (∀ g : ℚ, (0 ≤ g → correct_grade g = g) ∧ (g < 0 → correct_grade g = g * 2)) ∧
    correct_grade (-8) = -16 ∧ correct_grade (478/100) = 478/100 ∧
    correct_grade 0 = 0 ∧
    (∀ (st : TrainerState) (w0 w1 g0 g1 c0 c1 : ℕ),
      handle_control_point_command st [17, w0, w1, g0, g1, c0, c1] =
        ({(if st.erg_mode_enabled = true then
            {st with erg_mode_enabled := false, target_power := 0} else st) with
           current_grade := correct_grade ((int16LE g0 g1 : ℚ) / 100),
           current_wind_speed := (int16LE w0 w1 : ℚ) / 1000},
         some (controlPointResponse 17 1))) := by
  refine ⟨fun g => ⟨fun h => ?_, fun h => ?_⟩, ?_, ?_, ?_, fun st w0 w1 g0 g1 c0 c1 => rfl⟩
  · exact if_neg (not_lt.mpr h)
  · exact if_pos h
  · norm_num [correct_grade]
  · norm_num [correct_grade]
  · norm_num [correct_grade]

/-- Claim C7, witness: the correction cases applied at 4.78 and -8. -/
theorem C7_grade_correction_witness :
    ((0:ℚ) ≤ 478/100 ∧ correct_grade (478/100) = 478/100) ∧
    ((-8:ℚ) < 0 ∧ correct_grade (-8) = (-8) * 2) := by
  obtain ⟨hg, -⟩ := C7_grade_correction
  exact ⟨⟨by norm_num, (hg (478/100)).1 (by norm_num)⟩,
    ⟨by norm_num, (hg (-8)).2 (by norm_num)⟩⟩

/-- Claim C8 (code_bug).  The end-to-end scenario start, update 200 standard,
one tick: the code's VARIANCE_LEVELS maps the standard level to 0.25 even
though its own inline comment and the keyboard help text call it 10%
variance, so with a power jitter draw of 49/50 of the amplitude (a possible
random.uniform(-50, 50) sample of 49 W) the tick yields power 249 W, outside
the claimed 200 plus or minus 20 W band. -/
theorem C8_variance_bug :
    (update_power (start_power defaultState) 200
      (some VarianceLevel.standard)).power_variance_percent = 1/4 ∧
    (simulate_realistic_data (update_power (start_power defaultState) 200
      (some VarianceLevel.standard)) envJitter4950).power = 249 ∧
    ¬ ((simulate_realistic_data (update_power (start_power defaultState) 200
      (some VarianceLevel.standard)) envJitter4950).power ≤ 220) := by
  have hu : update_power (start_power defaultState) 200 (some VarianceLevel.standard) =
      {defaultState with
        is_stopped := false, power := 200, base_power := 200, cadence := 85} := by
    norm_num [update_power, start_power, stop_power, VARIANCE_LEVELS, defaultState,
      reduceCtorEq]
  have hb : tickBranch
      {defaultState with
        is_stopped := false, power := 200, base_power := 200, cadence := 85}
      envJitter4950 =
      {defaultState with
        is_stopped := false, power := 249, base_power := 200, cadence := 85} := by
    norm_num [tickBranch, defaultState, envJitter4950, reduceCtorEq]
    decide
  have hcl : clampPowerCadence
      {defaultState with
        is_stopped := false, power := 249, base_power := 200, cadence := 85} =
      {defaultState with
        is_stopped := false, power := 249, base_power := 200, cadence := 85} := by
    norm_num [clampPowerCadence, defaultState]
  have hs : tickSpeedUpdate
      {defaultState with
        is_stopped := false, power := 249, base_power := 200, cadence := 85}
      envJitter4950 =
      {defaultState with
        is_stopped := false, power := 249, base_power := 200, cadence := 85,
        speed := 36} := by
    norm_num [tickSpeedUpdate, tickSpeed, calculate_bike_speed, defaultState,
      envJitter4950]
  have ht : tickTuck
      {defaultState with
        is_stopped := false, power := 249, base_power := 200, cadence := 85,
        speed := 36}
      envJitter4950 =
      {defaultState with
        is_stopped := false, power := 249, base_power := 200, cadence := 85,
        speed := 36} := by
    norm_num [tickTuck, check_can_enter_super_tuck, check_should_exit_super_tuck,
      super_tuck_speed_threshold, super_tuck_grade_threshold_entry,
      super_tuck_grade_threshold_exit, defaultState, envJitter4950]
  refine ⟨by rw [hu]; norm_num [defaultState], ?_, ?_⟩
  · rw [hu, simulate_eval _ envJitter4950 _ _ _ _ rfl hb hcl hs ht]
  · rw [hu, simulate_eval _ envJitter4950 _ _ _ _ rfl hb hcl hs ht]
    norm_num

lemma tick_power_of_normal_zero_base (s : TrainerState) (env : TickEnv)
    (hstop : s.is_stopped = false) (herg : s.erg_mode_enabled = false)
    (hlvl : s.power_variance_level ≠ VarianceLevel.exact)
    (hbase : ¬ 0 < s.base_power) (htuck : s.is_super_tuck = false) :
    (simulate_realistic_data s env).power = 0 := by
  have h1 : ¬ (s.erg_mode_enabled = true ∧ 0 < s.target_power) := by simp [herg]
  have h2 : ¬ (s.erg_mode_enabled = true ∧ s.is_super_tuck = true) := by simp [herg]
  have hb : tickBranch s env =
      {s with power := 0,
              cadence := s.base_cadence + s.cadence_variation * env.uCadence} := by
    simp only [tickBranch]
    rw [if_neg h1, if_neg hlvl, if_neg h2, if_neg hbase]
  have hclp : (clampPowerCadence (tickBranch s env)).power = 0 := by
    show max 0 (min 2000 (tickBranch s env).power) = 0
    rw [hb]
    norm_num
  have hmids : (tickMidState s env).speed = 0 := by
    show tickSpeed (clampPowerCadence (tickBranch s env)) env = 0
    unfold tickSpeed
    rw [hclp, if_neg (lt_irrefl 0)]
  have hmtuck : (tickMidState s env).is_super_tuck = false := by
    rw [tickMidState_tuck_of_not_erg s env herg, htuck]
    split_ifs <;> rfl
  have hmerg : (tickMidState s env).erg_mode_enabled = false :=
    (tickMidState_erg s env).trans herg
  have hnc : ¬ check_can_enter_super_tuck (tickMidState s env) := by
    intro h
    have hsp : super_tuck_speed_threshold ≤ (tickMidState s env).speed := h.1
    rw [hmids] at hsp
    exact absurd hsp (by norm_num [super_tuck_speed_threshold])
  rw [simulate_not_stopped s env hstop, tickTuck_not_tucked _ env hmerg hmtuck,
    if_neg hnc]
  exact hclp

/-- Claim C10, amended (corrected).  In exact variance mode with the trainer
running and ERG not active with a positive target, a tick sets power to
target_power clamped to the interval from 0 to 2000 (not to target_power
exactly: a 3000 W target yields 2000 W, see the counterexample) and cadence
to base_cadence clamped to the interval from 0 to 200, provided the tick does
not end engaged in super tuck; and update w exact for any w > 0 from the
default state followed by one tick yields power 0 regardless of w: an
in-range w sets base_power but never target_power, and an out-of-range w is
rejected with no mutation at all, leaving base_power 0. -/
theorem C10_exact_mode_amended :
    (∀ (st : TrainerState) (env : TickEnv), st.is_stopped = false →
      ¬ (st.erg_mode_enabled = true ∧ 0 < st.target_power) →
      st.power_variance_level = VarianceLevel.exact →
      (simulate_realistic_data st env).is_super_tuck = false →
      (simulate_realistic_data st env).power = max 0 (min 2000 st.target_power) ∧
      (simulate_realistic_data st env).cadence = max 0 (min 200 st.base_cadence)) ∧
    (∀ (w : ℤ) (env : TickEnv), 0 < w →
      (simulate_realistic_data (update_power (start_power defaultState) w
        (some VarianceLevel.exact)) env).power = 0) := by
  constructor
  · intro st env hstop hnerg hexact hnt
    have hb : tickBranch st env =
        {st with power := st.target_power, cadence := st.base_cadence,
                 speed := calculate_bike_speed env.sq st.target_power st.current_grade
                   st.current_wind_speed env.solverExact,
                 is_super_tuck := false} := by
      unfold tickBranch
      rw [if_neg hnerg, if_pos hexact]
    have hmtuck : (tickMidState st env).is_super_tuck = false := by
      show (tickBranch st env).is_super_tuck = false
      rw [hb]
    have hmpower : (tickMidState st env).power = max 0 (min 2000 st.target_power) := by
      show max 0 (min 2000 (tickBranch st env).power) = _
      rw [hb]
    have hmcad : (tickMidState st env).cadence = max 0 (min 200 st.base_cadence) := by
      show max 0 (min 200 (tickBranch st env).cadence) = _
      rw [hb]
    by_cases herg : st.erg_mode_enabled = true
    · have h : tickTuck (tickMidState st env) env = tickMidState st env := by
        unfold tickTuck
        rw [if_pos ((tickMidState_erg st env).trans herg)]
      rw [simulate_not_stopped st env hstop, h]
      exact ⟨hmpower, hmcad⟩
    · have herg' : st.erg_mode_enabled = false := by
        simpa using herg
      have ht1 := tickTuck_not_tucked (tickMidState st env) env
        ((tickMidState_erg st env).trans herg') hmtuck
      by_cases hc : check_can_enter_super_tuck (tickMidState st env)
      · exfalso
        rw [simulate_not_stopped st env hstop, ht1, if_pos hc] at hnt
        exact Bool.noConfusion hnt
      · rw [simulate_not_stopped st env hstop, ht1, if_neg hc]
        exact ⟨hmpower, hmcad⟩
  · intro w env hw1
    by_cases hw2 : w ≤ 2000
    · have hu : update_power (start_power defaultState) w (some VarianceLevel.exact) =
          {defaultState with power_variance_level := VarianceLevel.exact,
                             power_variance_percent := 0, is_stopped := false,
                             power := (w : ℚ), base_power := (w : ℚ), cadence := 85} := by
        unfold update_power
        rw [if_neg (by omega : ¬ (w < 0 ∨ 2000 < w)), if_neg (by omega : ¬ w = 0)]
        rfl
      have hb : tickBranch {defaultState with
          power_variance_level := VarianceLevel.exact, power_variance_percent := 0,
          is_stopped := false, power := (w : ℚ), base_power := (w : ℚ),
          cadence := 85} env =
          {defaultState with power_variance_level := VarianceLevel.exact,
                             power_variance_percent := 0, is_stopped := false,
                             power := 0, base_power := (w : ℚ), cadence := 85,
                             speed := calculate_bike_speed env.sq 0 0 0 env.solverExact} := by
        norm_num [tickBranch, defaultState, reduceCtorEq]
      have hcl : clampPowerCadence {defaultState with
          power_variance_level := VarianceLevel.exact, power_variance_percent := 0,
          is_stopped := false, power := 0, base_power := (w : ℚ), cadence := 85,
          speed := calculate_bike_speed env.sq 0 0 0 env.solverExact} =
          {defaultState with power_variance_level := VarianceLevel.exact,
                             power_variance_percent := 0, is_stopped := false,
                             power := 0, base_power := (w : ℚ), cadence := 85,
                             speed := calculate_bike_speed env.sq 0 0 0 env.solverExact} := by
        norm_num [clampPowerCadence, defaultState]
      have hs : tickSpeedUpdate {defaultState with
          power_variance_level := VarianceLevel.exact, power_variance_percent := 0,
          is_stopped := false, power := 0, base_power := (w : ℚ), cadence := 85,
          speed := calculate_bike_speed env.sq 0 0 0 env.solverExact} env =
          {defaultState with power_variance_level := VarianceLevel.exact,
                             power_variance_percent := 0, is_stopped := false,
                             power := 0, base_power := (w : ℚ), cadence := 85,
                             speed := 0} := by
        norm_num [tickSpeedUpdate, tickSpeed, defaultState]
      have ht : tickTuck {defaultState with
          power_variance_level := VarianceLevel.exact, power_variance_percent := 0,
          is_stopped := false, power := 0, base_power := (w : ℚ), cadence := 85,
          speed := 0} env =
          {defaultState with power_variance_level := VarianceLevel.exact,
                             power_variance_percent := 0, is_stopped := false,
                             power := 0, base_power := (w : ℚ), cadence := 85,
                             speed := 0} := by
        rw [tickTuck_not_tucked _ env rfl rfl,
          if_neg (by norm_num [check_can_enter_super_tuck, super_tuck_speed_threshold,
            defaultState])]
      rw [hu, simulate_eval _ env _ _ _ _ rfl hb hcl hs ht]
    · have hu2 : update_power (start_power defaultState) w (some VarianceLevel.exact) =
          start_power defaultState := by
        unfold update_power
        rw [if_pos (Or.inr (by omega))]
      rw [hu2]
      exact tick_power_of_normal_zero_base (start_power defaultState) env rfl rfl
        (by decide) (by decide) rfl

/-- Claim C10, witness: the amended theorem applied to the deterministic
exact-variance state at speed 61.2 km/h (whose tick ends disengaged), to the
scenario update 200 exact followed by one tick, and to update 3000 exact
(rejected as out of range, so the tick still yields power 0). -/
theorem C10_exact_mode_witness :
    (stSpeed612.is_stopped = false ∧
      ¬ (stSpeed612.erg_mode_enabled = true ∧ 0 < stSpeed612.target_power) ∧
      stSpeed612.power_variance_level = VarianceLevel.exact ∧
      (simulate_realistic_data stSpeed612 envAllErr).is_super_tuck = false ∧
      (simulate_realistic_data stSpeed612 envAllErr).power =
        max 0 (min 2000 stSpeed612.target_power)) ∧
    ((0 : ℤ) < 200 ∧
      (simulate_realistic_data (update_power (start_power defaultState) 200
        (some VarianceLevel.exact)) envOk10).power = 0) ∧
    ((0 : ℤ) < 3000 ∧
      (simulate_realistic_data (update_power (start_power defaultState) 3000
        (some VarianceLevel.exact)) envOk10).power = 0) := by
  obtain ⟨p1, p2⟩ := C10_exact_mode_amended
  have hb : tickBranch stSpeed612 envAllErr =
      {stSpeed612 with power := 0, cadence := 85, speed := 567/10} := by
    norm_num [tickBranch, calculate_bike_speed, stSpeed612, defaultState, envAllErr,
      reduceCtorEq]
    rw [abs_of_nonneg (by norm_num : (0:ℚ) ≤ 81/10)]
    norm_num
  have hcl : clampPowerCadence
      {stSpeed612 with power := 0, cadence := 85, speed := 567/10} =
      {stSpeed612 with power := 0, cadence := 85, speed := 567/10} := by
    norm_num [clampPowerCadence, stSpeed612, defaultState]
  have hs : tickSpeedUpdate
      {stSpeed612 with power := 0, cadence := 85, speed := 567/10} envAllErr =
      {stSpeed612 with power := 0, cadence := 85, speed := 0} := by
    norm_num [tickSpeedUpdate, tickSpeed, stSpeed612, defaultState, envAllErr]
  have ht : tickTuck {stSpeed612 with power := 0, cadence := 85, speed := 0}
      envAllErr = {stSpeed612 with power := 0, cadence := 85, speed := 0} := by
    norm_num [tickTuck, check_can_enter_super_tuck, check_should_exit_super_tuck,
      super_tuck_speed_threshold, super_tuck_grade_threshold_entry,
      super_tuck_grade_threshold_exit, stSpeed612, defaultState, envAllErr]
  have hnt : (simulate_realistic_data stSpeed612 envAllErr).is_super_tuck = false := by
    rw [simulate_eval stSpeed612 envAllErr _ _ _ _ rfl hb hcl hs ht]
    rfl
  have hnerg : ¬ (stSpeed612.erg_mode_enabled = true ∧ 0 < stSpeed612.target_power) := by
    decide
  exact ⟨⟨rfl, hnerg, rfl, hnt, (p1 stSpeed612 envAllErr rfl hnerg rfl hnt).1⟩,
    ⟨by decide, p2 200 envOk10 (by decide)⟩,
    ⟨by decide, p2 3000 envOk10 (by decide)⟩⟩

/-- Claim C10, counterexample: an exact-variance tick with target_power
3000 W (ERG off) ends with power 2000 W, the clamp of line 744, not with
power equal to target_power. -/
theorem C10_exact_mode_counterexample :
    stExact3000.power_variance_level = VarianceLevel.exact ∧
    stExact3000.is_stopped = false ∧ stExact3000.erg_mode_enabled = false ∧
    stExact3000.target_power = 3000 ∧
    (simulate_realistic_data stExact3000 envOk10).power = 2000 ∧
    (simulate_realistic_data stExact3000 envOk10).power ≠ stExact3000.target_power := by
  have hb : tickBranch stExact3000 envOk10 =
      {stExact3000 with power := 3000, cadence := 85, speed := 36} := by
    norm_num [tickBranch, calculate_bike_speed, stExact3000, defaultState, envOk10,
      reduceCtorEq]
  have hcl : clampPowerCadence
      {stExact3000 with power := 3000, cadence := 85, speed := 36} =
      {stExact3000 with power := 2000, cadence := 85, speed := 36} := by
    norm_num [clampPowerCadence, stExact3000, defaultState]
  have hs : tickSpeedUpdate
      {stExact3000 with power := 2000, cadence := 85, speed := 36} envOk10 =
      {stExact3000 with power := 2000, cadence := 85, speed := 36} := by
    norm_num [tickSpeedUpdate, tickSpeed, calculate_bike_speed, stExact3000,
      defaultState, envOk10]
  have ht : tickTuck {stExact3000 with power := 2000, cadence := 85, speed := 36}
      envOk10 = {stExact3000 with power := 2000, cadence := 85, speed := 36} := by
    norm_num [tickTuck, check_can_enter_super_tuck, check_should_exit_super_tuck,
      super_tuck_speed_threshold, super_tuck_grade_threshold_entry,
      super_tuck_grade_threshold_exit, stExact3000, defaultState, envOk10]
  rw [simulate_eval stExact3000 envOk10 _ _ _ _ rfl hb hcl hs ht]
  norm_num [stExact3000, defaultState]

lemma nat_lohi (n : ℕ) (h : n < 65536) : n % 256 + 256 * (n / 256 % 256) = n := by
  have h2 : n / 256 < 256 := Nat.div_lt_of_lt_mul (by omega)
  rw [Nat.mod_eq_of_lt h2]
  omega

lemma pyInt_of_nonneg (q : ℚ) (h : 0 ≤ q) : pyInt q = Int.floor q :=
  if_neg (not_lt.mpr h)

/-- Claim C9 (confirmed, decoder modelled from the spec layout).  For every
in-range telemetry state, decoding the encoded Indoor Bike Data record
recovers speed within 0.01 km/h, cadence within 0.5 rpm and power within 1 W
of the state's values. -/
theorem C9_codec_roundtrip (st : TrainerState)
    (hs1 : 0 ≤ st.speed) (hs2 : st.speed ≤ 150)
    (hc1 : 0 ≤ st.cadence) (hc2 : st.cadence ≤ 200)
    (hp1 : 0 ≤ st.power) (hp2 : st.power ≤ 2000) :
    ∃ (bs : List ℕ) (s c p : ℚ),
      encode_indoor_bike_data st = some bs ∧
      decode_indoor_bike_data bs = some (s, c, p) ∧
      |s - st.speed| ≤ 1/100 ∧ |c - st.cadence| ≤ 1/2 ∧ |p - st.power| ≤ 1 := by
  have hsnn : (0:ℚ) ≤ st.speed * 100 := by positivity
  have hcnn : (0:ℚ) ≤ st.cadence * 2 := by positivity
  have hps : pyInt (st.speed * 100) = Int.floor (st.speed * 100) :=
    pyInt_of_nonneg _ hsnn
  have hpc : pyInt (st.cadence * 2) = Int.floor (st.cadence * 2) :=
    pyInt_of_nonneg _ hcnn
  have hpp : pyInt st.power = Int.floor st.power := pyInt_of_nonneg _ hp1
  have hns0 : 0 ≤ Int.floor (st.speed * 100) := Int.floor_nonneg.mpr hsnn
  have hns1 : Int.floor (st.speed * 100) ≤ 15000 := by
    have h : ((Int.floor (st.speed * 100) : ℤ) : ℚ) ≤ 15000 :=
      le_trans (Int.floor_le _) (by linarith)
    exact_mod_cast h
  have hnc0 : 0 ≤ Int.floor (st.cadence * 2) := Int.floor_nonneg.mpr hcnn
  have hnc1 : Int.floor (st.cadence * 2) ≤ 400 := by
    have h : ((Int.floor (st.cadence * 2) : ℤ) : ℚ) ≤ 400 :=
      le_trans (Int.floor_le _) (by linarith)
    exact_mod_cast h
  have hnp0 : 0 ≤ Int.floor st.power := Int.floor_nonneg.mpr hp1
  have hnp1 : Int.floor st.power ≤ 2000 := by
    have h : ((Int.floor st.power : ℤ) : ℚ) ≤ 2000 :=
      le_trans (Int.floor_le _) (by linarith)
    exact_mod_cast h
  have hpm : pyInt st.power % 65536 = pyInt st.power := by
    rw [hpp]
    exact Int.emod_eq_of_lt hnp0 (by omega)
  have henc : encode_indoor_bike_data st =
      some (u16LE 1092 ++ u16LE (Int.floor (st.speed * 100)).toNat ++
        u16LE (Int.floor (st.cadence * 2)).toNat ++ u16LE (Int.floor st.power).toNat) := by
    unfold encode_indoor_bike_data
    rw [if_pos ⟨by rw [hps]; exact hns0, by rw [hps]; omega, by rw [hpc]; exact hnc0,
      by rw [hpc]; omega, by rw [hpp]; omega, by rw [hpp]; omega⟩]
    rw [hpm, hps, hpc, hpp]
  have hdec : decode_indoor_bike_data
      (u16LE 1092 ++ u16LE (Int.floor (st.speed * 100)).toNat ++
        u16LE (Int.floor (st.cadence * 2)).toNat ++ u16LE (Int.floor st.power).toNat) =
      some ((((Int.floor (st.speed * 100)).toNat % 256 +
              256 * ((Int.floor (st.speed * 100)).toNat / 256 % 256) : ℕ) : ℚ) / 100,
            (((Int.floor (st.cadence * 2)).toNat % 256 +
              256 * ((Int.floor (st.cadence * 2)).toNat / 256 % 256) : ℕ) : ℚ) / 2,
            ((int16LE ((Int.floor st.power).toNat % 256)
              ((Int.floor st.power).toNat / 256 % 256) : ℤ) : ℚ)) := rfl
  have hsl : (Int.floor (st.speed * 100)).toNat % 256 +
      256 * ((Int.floor (st.speed * 100)).toNat / 256 % 256) =
      (Int.floor (st.speed * 100)).toNat := nat_lohi _ (by omega)
  have hcl : (Int.floor (st.cadence * 2)).toNat % 256 +
      256 * ((Int.floor (st.cadence * 2)).toNat / 256 % 256) =
      (Int.floor (st.cadence * 2)).toNat := nat_lohi _ (by omega)
  have hplb : (Int.floor st.power).toNat % 256 +
      256 * ((Int.floor st.power).toNat / 256 % 256) = (Int.floor st.power).toNat :=
    nat_lohi _ (by omega)
  have hint : (int16LE ((Int.floor st.power).toNat % 256)
      ((Int.floor st.power).toNat / 256 % 256) : ℤ) = Int.floor st.power := by
    unfold int16LE
    rw [hplb, if_pos (by omega)]
    exact Int.toNat_of_nonneg hnp0
  have hscast : (((Int.floor (st.speed * 100)).toNat : ℕ) : ℚ) =
      ((Int.floor (st.speed * 100) : ℤ) : ℚ) := by
    exact_mod_cast congrArg (fun z : ℤ => (z : ℚ)) (Int.toNat_of_nonneg hns0)
  have hccast : (((Int.floor (st.cadence * 2)).toNat : ℕ) : ℚ) =
      ((Int.floor (st.cadence * 2) : ℤ) : ℚ) := by
    exact_mod_cast congrArg (fun z : ℤ => (z : ℚ)) (Int.toNat_of_nonneg hnc0)
  refine ⟨_, ((Int.floor (st.speed * 100) : ℤ) : ℚ) / 100,
    ((Int.floor (st.cadence * 2) : ℤ) : ℚ) / 2,
    ((Int.floor st.power : ℤ) : ℚ), henc, ?_, ?_, ?_, ?_⟩
  · rw [hdec, hsl, hcl, hint, hscast, hccast]
  · rw [abs_le]
    have h1 : ((Int.floor (st.speed * 100) : ℤ) : ℚ) ≤ st.speed * 100 := Int.floor_le _
    have h2 : st.speed * 100 - 1 < ((Int.floor (st.speed * 100) : ℤ) : ℚ) :=
      Int.sub_one_lt_floor _
    constructor <;> linarith
  · rw [abs_le]
    have h1 : ((Int.floor (st.cadence * 2) : ℤ) : ℚ) ≤ st.cadence * 2 := Int.floor_le _
    have h2 : st.cadence * 2 - 1 < ((Int.floor (st.cadence * 2) : ℤ) : ℚ) :=
      Int.sub_one_lt_floor _
    constructor <;> linarith
  · rw [abs_le]
    have h1 : ((Int.floor st.power : ℤ) : ℚ) ≤ st.power := Int.floor_le _
    have h2 : st.power - 1 < ((Int.floor st.power : ℤ) : ℚ) := Int.sub_one_lt_floor _
    constructor <;> linarith

/-- Claim C9, witness: the round-trip theorem applied to the concrete state
with speed 32.47 km/h, cadence 92.5 rpm, power 249.3 W. -/
theorem C9_codec_roundtrip_witness :
    (0 ≤ stCodec.speed ∧ stCodec.speed ≤ 150 ∧ 0 ≤ stCodec.cadence ∧
      stCodec.cadence ≤ 200 ∧ 0 ≤ stCodec.power ∧ stCodec.power ≤ 2000) ∧
    (∃ (bs : List ℕ) (s c p : ℚ),
      encode_indoor_bike_data stCodec = some bs ∧
      decode_indoor_bike_data bs = some (s, c, p) ∧
      |s - stCodec.speed| ≤ 1/100 ∧ |c - stCodec.cadence| ≤ 1/2 ∧
      |p - stCodec.power| ≤ 1) := by
  have h1 : (0:ℚ) ≤ stCodec.speed := by norm_num [stCodec, defaultState]
  have h2 : stCodec.speed ≤ 150 := by norm_num [stCodec, defaultState]
  have h3 : (0:ℚ) ≤ stCodec.cadence := by norm_num [stCodec, defaultState]
  have h4 : stCodec.cadence ≤ 200 := by norm_num [stCodec, defaultState]
  have h5 : (0:ℚ) ≤ stCodec.power := by norm_num [stCodec, defaultState]
  have h6 : stCodec.power ≤ 2000 := by norm_num [stCodec, defaultState]
  exact ⟨⟨h1, h2, h3, h4, h5, h6⟩, C9_codec_roundtrip stCodec h1 h2 h3 h4 h5 h6⟩

end Zwiffery
